import Mathlib

/-!
Verification of the updatifyyy update manager.

This file gives a shallow embedding of the core pure logic of the
repository's three source files (`app.py`, `main_window.py`,
`ui/main_window.py`) and proves or refutes the frozen specification
claims about it.

External effects (the `git` binary, the filesystem, process spawning,
GTK widgets) are modelled by explicit environments: a `GitEnv` maps a
git argument vector to the (returncode, stdout, stderr) triple that
`run_git` would produce, a file system is a finite association list
from relative paths to line contents, and the installer spawner's
per-candidate launch attempt is summarised by a `SpawnOutcome`.
-/

namespace Updatifyyy

/-! ## Git status layer (`app.py` 83-189, `main_window.py` 140-320)

Both files carry byte-identical copies of `RepoStatus`, `run_git`,
`get_branch`, `get_upstream`, `get_dirty_count` and
`check_repo_status`; the embedding below covers both. -/

/-- `RepoStatus` dataclass: immutable snapshot of one refresh. -/
structure RepoStatus where
  ok : Bool
  repo_path : String
  branch : Option String := none
  upstream : Option String := none
  behind : Int := 0
  ahead : Int := 0
  dirty : Int := 0
  fetch_error : Option String := none
  error : Option String := none
  deriving Repr, DecidableEq

/-- `RepoStatus.has_updates` property: `self.ok and self.behind > 0`. -/
def RepoStatus.has_updates (st : RepoStatus) : Bool :=
  st.ok && st.behind > 0

/-- Environment abstracting the OS facts consulted by `check_repo_status`:
whether `repo_path` is a directory, whether `repo_path/.git` is a
directory, and the result `run_git` returns for each argument vector. -/
structure GitEnv where
  isDir : Bool
  isGitDir : Bool
  git : List String → Int × String × String

/-- `get_branch`: `rev-parse --abbrev-ref HEAD`, stripped stdout on rc 0. -/
def get_branch (env : GitEnv) : Option String :=
  let r := env.git ["rev-parse", "--abbrev-ref", "HEAD"]
  if r.1 = 0 then some r.2.1.trim else none

/-- `get_upstream`: try `rev-parse --abbrev-ref --symbolic-full-name @{u}`;
on failure fall back to `origin/<branch>` when a branch is known. -/
def get_upstream (env : GitEnv) (branch : Option String) : Option String :=
  let r := env.git ["rev-parse", "--abbrev-ref", "--symbolic-full-name", "@{u}"]
  if r.1 = 0 then some r.2.1.trim
  else
    match branch with
    | some b => some ("origin/" ++ b)
    | none => none

/-- `get_dirty_count`: number of non-blank lines of `status --porcelain`,
0 when the query fails. -/
def get_dirty_count (env : GitEnv) : Int :=
  let r := env.git ["status", "--porcelain"]
  if r.1 ≠ 0 then 0
  else ((r.2.1.splitOn "\n").filter (fun ln => ln.trim ≠ "")).length

/-- `int(out.strip() or "0")` with `ValueError` mapped to 0, as in the
behind/ahead parsing of `check_repo_status`. -/
def pyIntOr0 (s : String) : Int :=
  let t := s.trim
  ((if t = "" then "0" else t).toInt?).getD 0

/-- `check_repo_status`: fail fast on path/metadata problems, run
`fetch --all --prune` non-fatally, then resolve branch, upstream,
behind/ahead counts and the dirty count. -/
def check_repo_status (env : GitEnv) (repo_path : String) : RepoStatus :=
  if ¬ env.isDir then
    { ok := false, repo_path := repo_path, error := some "Repository path not found" }
  else if ¬ env.isGitDir then
    { ok := false, repo_path := repo_path, error := some "Not a git repository" }
  else
    let f := env.git ["fetch", "--all", "--prune"]
    let fetch_error :=
      if f.1 ≠ 0 then some ((if f.2.2 = "" then "fetch failed" else f.2.2).trim) else none
    let branch := get_branch env
    let upstream := get_upstream env branch
    let counts :=
      match upstream with
      | some u =>
        let rb := env.git ["rev-list", "--count", "HEAD.." ++ u]
        let behind := if rb.1 = 0 then pyIntOr0 rb.2.1 else 0
        let ra := env.git ["rev-list", "--count", u ++ "..HEAD"]
        let ahead := if ra.1 = 0 then pyIntOr0 ra.2.1 else 0
        (behind, ahead)
      | none => ((0 : Int), (0 : Int))
    let behind := counts.1
    let ahead := counts.2
    let dirty := get_dirty_count env
    { ok := true, repo_path := repo_path, branch := branch, upstream := upstream,
      behind := behind, ahead := ahead, dirty := dirty, fetch_error := fetch_error }

end Updatifyyy

namespace Updatifyyy

/-! ## 256-color palette (`app.py` 1910-1941, `_xterm_color`) -/

/-- Two lowercase hex digits, as Python's `f"{n:02x}"` for `n < 256`. -/
def hex2 (n : Nat) : String :=
  let d := fun (k : Nat) => "0123456789abcdef".toList.getD k '0'
  String.mk [d (n / 16 % 16), d (n % 16)]

/-- The 16-entry basic palette of `_xterm_color`. -/
def xtermBase : List String :=
  ["#000000", "#800000", "#008000", "#808000",
   "#000080", "#800080", "#008080", "#c0c0c0",
   "#808080", "#ff0000", "#00ff00", "#ffff00",
   "#0000ff", "#ff00ff", "#00ffff", "#ffffff"]

/-- `_xterm_color`: xterm 256-color palette index to hex RGB string.
Indices below 16 use the basic palette, 16-231 the 6x6x6 cube with the
`conv` channel levels, and everything above the grayscale ramp. -/
def _xterm_color (n : Nat) : String :=
  if n < 16 then xtermBase.getD n ""
  else if n ≤ 231 then
    let m := n - 16
    let r := (m / 36) % 6
    let g := (m / 6) % 6
    let b := m % 6
    let conv := [0, 95, 135, 175, 215, 255]
    "#" ++ hex2 (conv.getD r 0) ++ hex2 (conv.getD g 0) ++ hex2 (conv.getD b 0)
  else
    let level := 8 + (n - 232) * 10
    "#" ++ hex2 level ++ hex2 level ++ hex2 level

/-- Rendering of an (r, g, b) triple the way `_xterm_color` formats one,
used to state the 256-color claims against explicit channel values. -/
def rgbHex (r g b : Nat) : String :=
  "#" ++ hex2 r ++ hex2 g ++ hex2 b

/-- The claim's cube channel levels (0, 95, 135, 175, 215, 255). -/
def cubeLevels : List Nat := [0, 95, 135, 175, 215, 255]

end Updatifyyy

namespace Updatifyyy

/-! ## Installer spawner (`_spawn_setup_install`, `app.py` 1601-1761,
`main_window.py` 1868-2080)

The spawner iterates over a fixed fallback list of command vectors.
The whole body of the per-candidate `try` block (pty allocation with
internal degrade, `Popen`, starting the feeder thread) is summarised by
one `SpawnOutcome` per candidate: it either produces a process handle,
raises an `OSError` with `errno == ENOEXEC`, raises some other
`OSError`, or raises some other exception. -/

/-- Result of attempting to launch one fallback candidate. -/
inductive SpawnOutcome where
  /-- the `Popen` call succeeded and a handle is returned -/
  | success
  /-- `OSError` with `errno.ENOEXEC` (exec format error) -/
  | enoexec
  /-- any other `OSError`, carrying its message -/
  | osError (msg : String)
  /-- any other exception, carrying its message -/
  | exc (msg : String)
  deriving Repr, DecidableEq

/-- `[warn]` line logged before moving to the next fallback. -/
def enoexecWarn (cmd : String) : String :=
  "[warn] Exec format error with " ++ cmd ++ "; trying fallback...\n"

/-- `[error]` line logged when a launch raises a non-ENOEXEC error. -/
def spawnErrLine (msg : String) : String := "[error] " ++ msg ++ "\n"

/-- `[error]` line logged after the loop exhausts all fallbacks. -/
def allFailedLine : String := "[error] All setup execution fallbacks failed.\n"

/-- The `for cmd in base_cmds` loop of `_spawn_setup_install`: each
candidate is a (joined command line, launch outcome) pair; the result
is the launched candidate (or `none`) together with the log lines
emitted by the loop, appended to `log`. -/
def spawnLoop (log : List String) : List (String × SpawnOutcome) → Option String × List String
  | [] => (none, log ++ [allFailedLine])
  | (cmd, .success) :: _ => (some cmd, log)
  | (cmd, .enoexec) :: rest => spawnLoop (log ++ [enoexecWarn cmd]) rest
  | (_, .osError msg) :: _ => (none, log ++ [spawnErrLine msg])
  | (_, .exc msg) :: _ => (none, log ++ [spawnErrLine msg])

/-! ## Auto-input feeder

`main_window.py` 2003-2065: with a non-empty `auto_input_seq` the
`_feed` thread writes each item then the `"yesforall\n"` sentinel; with
an empty sequence the `_feed_yesforall` thread writes the sentinel
alone.  `app.py` 1714-1746: the feeder thread is started only when
`auto_input_seq` is non-empty and writes just the items, no sentinel.
Each model returns the list of strings written to the child's input
(delays and logging elided, no write failures). -/

/-- Writes performed by the feeder of `main_window.py`'s spawner. -/
def feederWritesMW (autoInputs : List String) : List String :=
  if autoInputs.isEmpty then ["yesforall\n"]
  else autoInputs ++ ["yesforall\n"]

/-- Writes performed by the feeder of `app.py`'s spawner. -/
def feederWritesApp (autoInputs : List String) : List String :=
  if autoInputs.isEmpty then [] else autoInputs

end Updatifyyy

namespace Updatifyyy

/-! ## Update cycle: installer phase and final report
(`ui/main_window.py` 551-740 `update_work`, 999-1018 `_finish_update`)

`update_work` computes `success = pull.returncode == 0` right after the
`git pull`, runs the installer, retries once with `install` when an
`install-files` run exits non-zero, and finally calls
`_finish_update(success, ...)`, which derives the history-log title and
the notification from `success` alone. -/

/-- Exit codes of the external commands involved in one embedded-install
update cycle. -/
structure UpdateEnv where
  /-- returncode of `git pull --rebase --autostash --stat` -/
  pullRc : Int
  /-- exit code of the first installer invocation -/
  firstRc : Int
  /-- exit code of the fallback `./setup install` invocation -/
  retryRc : Int

/-- Outcome of the installer phase plus the final report: the installer
invocations actually run (extra args, exit code, in order), the history
log title chosen by `_finish_update`, and the success flag passed to
the notification body. -/
structure UpdateReport where
  attempts : List (List String × Int)
  title : String
  notifySuccess : Bool
  deriving Repr, DecidableEq

/-- Installer phase of `update_work` followed by `_finish_update`, for
the embedded (non-kitty) install path with installer plan `extraArgs`. -/
def updateInstallPhase (env : UpdateEnv) (extraArgs : List String) : UpdateReport :=
  let success := env.pullRc = 0
  let rc := env.firstRc
  let attempts := [(extraArgs, rc)]
  let attempts :=
    if rc ≠ 0 ∧ extraArgs.contains "install-files" then
      attempts ++ [(["install"], env.retryRc)]
    else attempts
  { attempts := attempts
    title := if success then "Update complete" else "Update failed"
    notifySuccess := success }

end Updatifyyy

namespace Updatifyyy

/-! ## ANSI SGR decoder (`_insert_ansi_formatted`, `app.py` 1764-1978)

The function takes a GTK text buffer and a raw string, finds every
complete SGR sequence matching `\x1b\[[0-9;]*m`, inserts the text
between matches into the buffer tagged with the currently active tag
names, and updates the active tag list from the codes of each match.
The buffer is modelled as the list of inserted (text, tags) spans; tag
objects are identified by their names.  `active_tags` is a local
variable initialised to the empty list on every call, and the text
after the last complete match (including any partial escape sequence)
is inserted as plain text: the function keeps no state between calls. -/

/-- One tagged insertion into the log buffer. -/
structure AnsiSpan where
  text : String
  tags : List String
  deriving Repr, DecidableEq

/-- The `sgr_map` table: SGR code to tag name. -/
def sgrMap (c : String) : Option String :=
  match c with
  | "1" => some "ansi-bold"
  | "2" => some "ansi-dim"
  | "3" => some "ansi-italic"
  | "4" => some "ansi-underline"
  | "30" => some "ansi-bright-black"
  | "31" => some "ansi-red"
  | "32" => some "ansi-green"
  | "33" => some "ansi-yellow"
  | "34" => some "ansi-blue"
  | "35" => some "ansi-magenta"
  | "36" => some "ansi-cyan"
  | "37" => some "ansi-white"
  | "90" => some "ansi-bright-black"
  | "91" => some "ansi-bright-red"
  | "92" => some "ansi-bright-green"
  | "93" => some "ansi-bright-yellow"
  | "94" => some "ansi-bright-blue"
  | "95" => some "ansi-bright-magenta"
  | "96" => some "ansi-bright-cyan"
  | "97" => some "ansi-bright-white"
  | _ => none

/-- The `bg_map` table: background SGR code to hex color. -/
def bgMap (c : String) : Option String :=
  match c with
  | "40" => some "#000000"
  | "41" => some "#ff5555"
  | "42" => some "#50fa7b"
  | "43" => some "#f1fa8c"
  | "44" => some "#8be9fd"
  | "45" => some "#ff79c6"
  | "46" => some "#66d9ef"
  | "47" => some "#f8f8f2"
  | "100" => some "#6272a4"
  | "101" => some "#ff6e6e"
  | "102" => some "#69ff94"
  | "103" => some "#ffffa5"
  | "104" => some "#9aedfe"
  | "105" => some "#ff92df"
  | "106" => some "#82e9ff"
  | "107" => some "#ffffff"
  | _ => none

/-- Handling of a single SGR code that is not a 256-color introducer:
`tag = sgr_map.get(c); if tag and tag not in active_tags: append(tag);
elif c in bg_map: append("ansi-bg-" + c)`. -/
def applyOne (tags : List String) (c : String) : List String :=
  match sgrMap c with
  | some t =>
    if ¬ tags.contains t then tags ++ [t]
    else if (bgMap c).isSome then tags ++ ["ansi-bg-" ++ c] else tags
  | none =>
    if (bgMap c).isSome then tags ++ ["ansi-bg-" ++ c] else tags

/-- Python `int(<digit string>)`: `none` on the empty string (a raised
`ValueError`), the decimal value otherwise; SGR code strings contain
only decimal digits. -/
def pyDigits? (cs : List Char) : Option Nat :=
  if cs.isEmpty then none
  else
    cs.foldl
      (fun acc c =>
        match acc with
        | none => none
        | some n => if c.isDigit then some (n * 10 + (c.toNat - '0'.toNat)) else none)
      (some 0)

/-- The `while i < len(codes)` loop: `38;5;<n>` / `48;5;<n>` consume
three codes and append an `ansi-xterm-<c>-<n>` tag (skipped when
`int(codes[i+2])` raises); every other code consumes one and goes
through `applyOne`. -/
def applySgr (tags : List String) : List String → List String
  | [] => tags
  | c :: c1 :: c2 :: rest' =>
    if (c = "38" ∨ c = "48") ∧ c1 = "5" then
      let tags' :=
        match pyDigits? c2.data with
        | some n => tags ++ ["ansi-xterm-" ++ c ++ "-" ++ toString n]
        | none => tags
      applySgr tags' rest'
    else applySgr (applyOne tags c) (c1 :: c2 :: rest')
  | c :: rest => applySgr (applyOne tags c) rest

/-- Splitting a sequence body at `';'` characters, as Python
`str.split(";")` on a non-empty string: the groups between separators,
including empty groups. -/
def splitSemis : List Char → List (List Char)
  | [] => [[]]
  | c :: cs =>
    match splitSemis cs with
    | [] => [[]]
    | g :: gs => if c = ';' then [] :: g :: gs else (c :: g) :: gs

/-- Processing of one complete SGR sequence body (the characters
between `\x1b[` and `m`): `codes = body.split(";")` (empty list for the
bare `\x1b[m`); an absent or explicit `"0"` code clears all active
tags, otherwise the codes are folded over the active tag list. -/
def applyCodes (tags : List String) (body : List Char) : List String :=
  let codes := if body.isEmpty then [] else (splitSemis body).map String.mk
  if codes.isEmpty || codes.contains "0" then [] else applySgr tags codes

/-- The escape character `\x1b`. -/
def escChar : Char := '\x1b'

/-- Scanner state while looking for the next `\x1b\[[0-9;]*m` match:
in plain text, just after `\x1b`, or inside the `[0-9;]*` body. -/
inductive ScanSt where
  | norm
  | esc1
  | body (b : List Char)
  deriving Repr, DecidableEq

/-- Characters a `ScanSt` has tentatively consumed, replayed as plain
text when the escape attempt fails or input ends. -/
def ScanSt.chars : ScanSt → List Char
  | .norm => []
  | .esc1 => [escChar]
  | .body b => escChar :: '[' :: b

/-- One left-to-right pass of `_insert_ansi_formatted`: `buf` is the
text buffer so far, `tags` the `active_tags` list, `txt` the plain text
accumulated since the last match.  Non-empty segments are appended to
the buffer with the active tags; a completed match updates the tags via
`applyCodes`; a failed escape attempt replays its characters as plain
text (re-examining the offending character, which may itself start a
new escape); the trailing remainder is inserted untagged-change-free at
the end. -/
def ansiScan (buf : List AnsiSpan) (tags : List String) (txt : List Char) :
    ScanSt → List Char → List AnsiSpan
  | st, [] =>
    let rem := txt ++ st.chars
    if rem.isEmpty then buf else buf ++ [⟨String.mk rem, tags⟩]
  | .norm, c :: cs =>
    if c = escChar then ansiScan buf tags txt .esc1 cs
    else ansiScan buf tags (txt ++ [c]) .norm cs
  | .esc1, c :: cs =>
    if c = '[' then ansiScan buf tags txt (.body []) cs
    else if c = escChar then ansiScan buf tags (txt ++ [escChar]) .esc1 cs
    else ansiScan buf tags (txt ++ [escChar, c]) .norm cs
  | .body b, c :: cs =>
    if c.isDigit ∨ c = ';' then ansiScan buf tags txt (.body (b ++ [c])) cs
    else if c = 'm' then
      let buf' := if txt.isEmpty then buf else buf ++ [⟨String.mk txt, tags⟩]
      ansiScan buf' (applyCodes tags b) [] .norm cs
    else if c = escChar then ansiScan buf tags (txt ++ escChar :: '[' :: b) .esc1 cs
    else ansiScan buf tags (txt ++ (escChar :: '[' :: b) ++ [c]) .norm cs

/-- `_insert_ansi_formatted(buf, raw)`: append `raw`'s decoded spans to
the buffer, starting every call with an empty `active_tags` list. -/
def _insert_ansi_formatted (buf : List AnsiSpan) (raw : String) : List AnsiSpan :=
  ansiScan buf [] [] .norm raw.data

end Updatifyyy

namespace Updatifyyy

/-! ## Tweaks restore (`_restore_tweaks_after_install`,
`ui/main_window.py` 771-997)

The loop body is modelled per archived file over an explicit file
system: an association list from relative path (under the tweaks target
directory) to the file's line content as Python's `readlines` produces
it.  A missing path models a file the installer deleted.  The model
covers the per-file branch (`auto_restore == False`, i.e. at most 200
archived files) with fallible I/O elided: reads succeed and `copy2`
succeeds, so the `skipped` counter, which only counts restore copy
errors, stays 0. -/

/-- The target directory's files: relative path to line content. -/
abbrev FS := List (String × List String)

/-- Current content of a relative path, `none` when the file is absent. -/
def fsGet : FS → String → Option (List String)
  | [], _ => none
  | (q, d) :: rest, p => if q = p then some d else fsGet rest p

/-- `shutil.copy2` onto a relative path: overwrite or create. -/
def fsSet : FS → String → List String → FS
  | [], p, c => [(p, c)]
  | (q, d) :: rest, p, c => if q = p then (p, c) :: rest else (q, d) :: fsSet rest p c

/-- Model of Python `difflib.unified_diff(new, old, fromfile="updated",
tofile="backup", lineterm="")` at the granularity the claims use: the
output is empty exactly when the inputs are equal, and otherwise starts
with the two file headers followed by the changed lines. -/
def unifiedDiff (new old : List String) : List String :=
  if new = old then []
  else "--- updated" :: "+++ backup" ::
    (new.map (fun l => "-" ++ l) ++ old.map (fun l => "+" ++ l))

/-- The user's answer to the per-file restore dialog. -/
inductive Decision where
  | restore
  | keepNew
  deriving Repr, DecidableEq

/-- Result of processing one archived file. -/
structure FileOutcome where
  fs : FS
  restored : Nat
  kept : Nat
  skipped : Nat
  /-- `some (rel, preview)` when the decision dialog was shown -/
  prompt : Option (String × List String)
  deriving Repr, DecidableEq

/-- One iteration of the `for rel, backup_full in all_backup_files`
loop, per-file mode: identical non-empty content is auto-kept without a
prompt; otherwise the (up to 200 line) diff preview is computed and the
decision callback consulted; `Restore` saves any existing current file
to a `.tweaks.bak` sibling and overwrites the path with the archived
content, `Keep New` leaves the file untouched. -/
def restoreFile (cb : String → List String → Decision) (fs : FS)
    (rel : String) (bk : List String) : FileOutcome :=
  let cur := fsGet fs rel
  let oldLines := bk
  let newLines := cur.getD []
  if newLines ≠ [] ∧ oldLines = newLines then
    { fs := fs, restored := 0, kept := 1, skipped := 0, prompt := none }
  else
    let diffLines := unifiedDiff newLines oldLines
    let preview := diffLines.take 200
    match cb rel preview with
    | .restore =>
      let fs1 :=
        match cur with
        | some c => fsSet fs (rel ++ ".tweaks.bak") c
        | none => fs
      { fs := fsSet fs1 rel bk, restored := 1, kept := 0, skipped := 0,
        prompt := some (rel, preview) }
    | .keepNew =>
      { fs := fs, restored := 0, kept := 1, skipped := 0,
        prompt := some (rel, preview) }

/-- Accumulated result of the whole restore pass. -/
structure RestoreSummary where
  fs : FS
  restored : Nat
  kept : Nat
  skipped : Nat
  /-- the prompts shown, in loop order -/
  prompts : List (String × List String)
  deriving Repr, DecidableEq

/-- The whole per-file restore loop over the archived file list. -/
def restoreTweaks (cb : String → List String → Decision) (fs : FS) :
    List (String × List String) → RestoreSummary
  | [] => { fs := fs, restored := 0, kept := 0, skipped := 0, prompts := [] }
  | (rel, bk) :: rest =>
    let r := restoreFile cb fs rel bk
    let s := restoreTweaks cb r.fs rest
    { fs := s.fs, restored := r.restored + s.restored, kept := r.kept + s.kept,
      skipped := r.skipped + s.skipped,
      prompts := (match r.prompt with | some p => [p] | none => []) ++ s.prompts }

end Updatifyyy



namespace Updatifyyy

/-! ## Claim theorems -/

/-- C3: for every `RepoStatus` snapshot, `has_updates` holds exactly
when `ok` is true and `behind > 0`; in particular `behind = 0` makes
`has_updates` false regardless of the other fields. -/
theorem c3_has_updates_iff (st : RepoStatus) :
    (st.has_updates = true ↔ (st.ok = true ∧ st.behind > 0)) ∧
    (st.behind = 0 → st.has_updates = false) := by
  constructor
  · simp [RepoStatus.has_updates]
  · intro h
    simp [RepoStatus.has_updates, h]

/-- Witness for C3 at a concrete snapshot: `behind = 0` with `ok`,
`ahead`, `dirty` and `fetch_error` all set still yields no updates. -/
theorem c3_has_updates_iff_witness :
    ({ ok := true, repo_path := "r", ahead := 7, dirty := 3,
       fetch_error := some "boom", behind := 0 } : RepoStatus).has_updates = false :=
  (c3_has_updates_iff _).2 rfl

/-- C9: when the upstream helper resolves nothing (tracking-ref query
failed and no branch is known), `check_repo_status` leaves `behind` and
`ahead` at 0 and the snapshot reports no updates. -/
theorem c9_no_upstream_no_updates (env : GitEnv) (path : String)
    (h : get_upstream env (get_branch env) = none) :
    (check_repo_status env path).behind = 0 ∧
    (check_repo_status env path).ahead = 0 ∧
    (check_repo_status env path).has_updates = false := by
  unfold check_repo_status
  by_cases h1 : env.isDir <;> by_cases h2 : env.isGitDir <;>
    simp [h1, h2, h, RepoStatus.has_updates]

/-- Witness for C9: an environment where every git query fails, so
neither the tracking ref nor a branch resolves. -/
theorem c9_no_upstream_no_updates_witness :
    get_upstream ⟨true, true, fun _ => (1, "", "")⟩
      (get_branch ⟨true, true, fun _ => (1, "", "")⟩) = none ∧
    (check_repo_status ⟨true, true, fun _ => (1, "", "")⟩ "p").has_updates = false :=
  ⟨rfl, (c9_no_upstream_no_updates ⟨true, true, fun _ => (1, "", "")⟩ "p" rfl).2.2⟩

/-- C8: the 256-color mapping takes index 0 to black, 15 to white, 16
to black and 231 to white; indices 16-231 follow the 6x6x6 cube with
channel levels (0, 95, 135, 175, 215, 255); grayscale indices
232 + k (k < 24) map to level 8 + 10k; and index 232 is a dark gray
distinct from index 255's near-white. -/
theorem c8_xterm_color_mapping :
    _xterm_color 0 = "#000000" ∧ _xterm_color 15 = "#ffffff" ∧
    _xterm_color 16 = "#000000" ∧ _xterm_color 231 = "#ffffff" ∧
    (∀ r, r < 6 → ∀ g, g < 6 → ∀ b, b < 6 →
      _xterm_color (16 + 36 * r + 6 * g + b) =
        rgbHex (cubeLevels.getD r 0) (cubeLevels.getD g 0) (cubeLevels.getD b 0)) ∧
    (∀ k, k < 24 →
      _xterm_color (232 + k) = rgbHex (8 + 10 * k) (8 + 10 * k) (8 + 10 * k)) ∧
    _xterm_color 232 ≠ _xterm_color 255 := by
  refine ⟨by decide, by decide, by decide, by decide, by decide, by decide, by decide⟩

/-- Witness for C8: cube index 196 is pure red, grayscale index 244 is
mid gray. -/
theorem c8_xterm_color_mapping_witness :
    _xterm_color 196 = rgbHex 255 0 0 ∧ _xterm_color 244 = rgbHex 128 128 128 :=
  ⟨c8_xterm_color_mapping.2.2.2.2.1 5 (by decide) 0 (by decide) 0 (by decide),
   c8_xterm_color_mapping.2.2.2.2.2.1 12 (by decide)⟩

/-- C6 counterexample: in the `app.py` variant of the spawner the
feeder writes nothing at all when `auto_input_seq` is empty (the claim
says the sentinel line is written alone), and writes no trailing
sentinel after a non-empty sequence. -/
theorem c6_app_feeder_counterexample :
    feederWritesApp [] = [] ∧
    feederWritesApp [] ≠ ["yesforall\n"] ∧
    feederWritesApp ["n\n"] = ["n\n"] := by
  decide

/-- C6 (amended): the `main_window.py` feeder writes the items followed
by exactly one trailing `"yesforall\n"` sentinel (the sentinel alone
when the sequence is empty), while the `app.py` variant writes only the
items themselves and never a sentinel. -/
theorem c6_feeder_writes (xs : List String) :
    feederWritesMW xs = xs ++ ["yesforall\n"] ∧ feederWritesApp xs = xs := by
  cases xs <;> simp [feederWritesMW, feederWritesApp]

/-- C2 counterexample: pull succeeds, the minimal install exits 1, the
automatic full-install retry also exits 1, yet the cycle is reported as
"Update complete" with a success notification - the report tracks the
pull's exit code, not the retry's. -/
theorem c2_report_counterexample :
    (updateInstallPhase ⟨0, 1, 1⟩ ["install-files"]).attempts =
      [(["install-files"], 1), (["install"], 1)] ∧
    (updateInstallPhase ⟨0, 1, 1⟩ ["install-files"]).title = "Update complete" ∧
    (updateInstallPhase ⟨0, 1, 1⟩ ["install-files"]).notifySuccess = true := by
  decide

/-- C2 (amended): a non-zero exit of an `install-files` run triggers
exactly one automatic retry with the full `install` command, but the
success reported at the end of the cycle (log title and notification)
reflects the git pull's exit code and ignores both installer exit
codes. -/
theorem c2_retry_once_report_from_pull (env : UpdateEnv) (extraArgs : List String)
    (hfail : env.firstRc ≠ 0) (hmin : extraArgs.contains "install-files") :
    (updateInstallPhase env extraArgs).attempts =
      [(extraArgs, env.firstRc), (["install"], env.retryRc)] ∧
    ((updateInstallPhase env extraArgs).title = "Update complete" ↔ env.pullRc = 0) ∧
    ((updateInstallPhase env extraArgs).notifySuccess = true ↔ env.pullRc = 0) := by
  have hmem : "install-files" ∈ extraArgs := by simpa using hmin
  unfold updateInstallPhase
  refine ⟨by simp [hfail, hmem], ?_, ?_⟩ <;>
    by_cases hp : env.pullRc = 0 <;> simp [hp]

/-- Witness for C2 (amended) at concrete exit codes: pull fails, the
minimal install fails, the retry succeeds; the retry is recorded and
the report says failure because the pull failed. -/
theorem c2_retry_once_report_from_pull_witness :
    (updateInstallPhase ⟨1, 2, 0⟩ ["install-files"]).attempts =
      [(["install-files"], 2), (["install"], 0)] ∧
    (updateInstallPhase ⟨1, 2, 0⟩ ["install-files"]).title = "Update failed" := by
  have h := c2_retry_once_report_from_pull ⟨1, 2, 0⟩ ["install-files"]
    (by decide) (by decide)
  refine ⟨h.1, ?_⟩
  have ht := h.2.1
  revert ht
  decide

end Updatifyyy

namespace Updatifyyy

/-- C5: an ENOEXEC launch failure logs a warning and moves on to the
next fallback candidate; any other OS error (or exception) aborts the
whole spawn with a `none` result and a logged message; and the spawner
reaches the after-loop `none` return - the one logging that all
fallbacks failed, with one warning per candidate - exactly when every
candidate failed to start with an exec-format error. -/
theorem c5_spawner_error_handling :
    (∀ log cmd rest, spawnLoop log ((cmd, SpawnOutcome.enoexec) :: rest) =
        spawnLoop (log ++ [enoexecWarn cmd]) rest) ∧
    (∀ log cmd msg rest, spawnLoop log ((cmd, SpawnOutcome.osError msg) :: rest) =
        (none, log ++ [spawnErrLine msg])) ∧
    (∀ log cmds, spawnLoop log cmds =
        (none, log ++ cmds.map (fun p => enoexecWarn p.1) ++ [allFailedLine]) ↔
        ∀ p ∈ cmds, p.2 = SpawnOutcome.enoexec) := by
  refine ⟨fun _ _ _ => rfl, fun _ _ _ _ => rfl, ?_⟩
  intro log cmds
  induction cmds generalizing log with
  | nil => simp [spawnLoop]
  | cons hd tl ih =>
    obtain ⟨cmd, o⟩ := hd
    cases o with
    | success => simp [spawnLoop]
    | enoexec =>
      have hmap :
          log ++ List.map (fun p => enoexecWarn p.1)
              ((cmd, SpawnOutcome.enoexec) :: tl) ++ [allFailedLine] =
            (log ++ [enoexecWarn cmd]) ++
              List.map (fun p => enoexecWarn p.1) tl ++ [allFailedLine] := by
        simp
      rw [spawnLoop, hmap, ih (log ++ [enoexecWarn cmd])]
      simp
    | osError msg => simp [spawnLoop]
    | exc msg => simp [spawnLoop]

/-- Witness for C5: both candidates hit exec-format errors, so the
loop is exhausted, a warning per candidate is logged, and the final
all-fallbacks-failed line is emitted with a `none` result. -/
theorem c5_spawner_error_handling_witness :
    spawnLoop [] [("./setup install", SpawnOutcome.enoexec),
                  ("bash ./setup install", SpawnOutcome.enoexec)] =
      (none, [enoexecWarn "./setup install", enoexecWarn "bash ./setup install",
              allFailedLine]) :=
  (c5_spawner_error_handling.2.2 [] _).mpr (by decide)

end Updatifyyy

namespace Updatifyyy

/-- Two environments agreeing outside the fetch query resolve the same
branch. -/
theorem get_branch_congr (env₁ env₂ : GitEnv)
    (hq : ∀ args, args ≠ ["fetch", "--all", "--prune"] → env₁.git args = env₂.git args) :
    get_branch env₁ = get_branch env₂ := by
  unfold get_branch
  rw [hq _ (by decide)]

/-- Two environments agreeing outside the fetch query resolve the same
upstream. -/
theorem get_upstream_congr (env₁ env₂ : GitEnv)
    (hq : ∀ args, args ≠ ["fetch", "--all", "--prune"] → env₁.git args = env₂.git args) :
    get_upstream env₁ (get_branch env₁) = get_upstream env₂ (get_branch env₂) := by
  unfold get_upstream
  rw [hq _ (by decide), get_branch_congr env₁ env₂ hq]

/-- Two environments agreeing outside the fetch query compute the same
dirty count. -/
theorem get_dirty_count_congr (env₁ env₂ : GitEnv)
    (hq : ∀ args, args ≠ ["fetch", "--all", "--prune"] → env₁.git args = env₂.git args) :
    get_dirty_count env₁ = get_dirty_count env₂ := by
  unfold get_dirty_count
  rw [hq _ (by decide)]

/-- C4: `check_repo_status` returns `ok = false` exactly for the two
path/metadata problems, with their fixed error messages; and the
result of the fetch query influences nothing but `fetch_error`: two
environments that agree on the directory checks and on every git query
other than `fetch --all --prune` produce snapshots with identical
`branch`, `upstream`, `behind`, `ahead`, `dirty`, `ok` and `error`. -/
theorem c4_ok_errors_and_fetch_isolation (env₁ env₂ : GitEnv) (path : String)
    (hd : env₁.isDir = env₂.isDir) (hg : env₁.isGitDir = env₂.isGitDir)
    (hq : ∀ args, args ≠ ["fetch", "--all", "--prune"] → env₁.git args = env₂.git args) :
    ((check_repo_status env₁ path).ok = false ↔
      (env₁.isDir = false ∨ env₁.isGitDir = false)) ∧
    (env₁.isDir = false →
      (check_repo_status env₁ path).error = some "Repository path not found") ∧
    (env₁.isDir = true → env₁.isGitDir = false →
      (check_repo_status env₁ path).error = some "Not a git repository") ∧
    ((check_repo_status env₁ path).branch = (check_repo_status env₂ path).branch ∧
     (check_repo_status env₁ path).upstream = (check_repo_status env₂ path).upstream ∧
     (check_repo_status env₁ path).behind = (check_repo_status env₂ path).behind ∧
     (check_repo_status env₁ path).ahead = (check_repo_status env₂ path).ahead ∧
     (check_repo_status env₁ path).dirty = (check_repo_status env₂ path).dirty ∧
     (check_repo_status env₁ path).ok = (check_repo_status env₂ path).ok ∧
     (check_repo_status env₁ path).error = (check_repo_status env₂ path).error) := by
  have hb := get_branch_congr env₁ env₂ hq
  have hu := get_upstream_congr env₁ env₂ hq
  have hdc := get_dirty_count_congr env₁ env₂ hq
  have hrev : ∀ s : String,
      env₁.git ["rev-list", "--count", s] = env₂.git ["rev-list", "--count", s] := by
    intro s
    refine hq _ ?_
    intro h
    injection h with h1
    exact absurd h1 (by decide)
  have hu2 : get_upstream env₁ (get_branch env₂) = get_upstream env₂ (get_branch env₂) := by
    have h := hu
    rw [hb] at h
    exact h
  refine ⟨?_, ?_, ?_, ?_⟩
  · unfold check_repo_status
    by_cases h1 : env₁.isDir <;> by_cases h2 : env₁.isGitDir <;> simp [h1, h2]
  · intro h1
    unfold check_repo_status
    simp [h1]
  · intro h1 h2
    unfold check_repo_status
    simp [h1, h2]
  · unfold check_repo_status
    rw [← hd, ← hg]
    by_cases h1 : env₁.isDir
    · by_cases h2 : env₁.isGitDir
      · cases hU : get_upstream env₂ (get_branch env₂) with
        | none => simp [h1, h2, hb, hu2, hU, hdc]
        | some u => simp [h1, h2, hb, hu2, hU, hdc, hrev]
      · simp [h1, h2]
    · simp [h1]

/-- Witness for C4: a concrete pair of environments differing only in
the fetch result (one fails, one succeeds); the non-directory case
yields the fixed error, and the frame equalities hold. -/
theorem c4_ok_errors_and_fetch_isolation_witness :
    (check_repo_status ⟨false, true, fun _ => (0, "", "")⟩ "p").error =
      some "Repository path not found" ∧
    (check_repo_status
        ⟨true, true, fun a => if a = ["fetch", "--all", "--prune"] then (1, "", "boom") else (0, "x", "")⟩
        "p").behind =
      (check_repo_status ⟨true, true, fun _ => (0, "x", "")⟩ "p").behind := by
  constructor
  · exact (c4_ok_errors_and_fetch_isolation ⟨false, true, fun _ => (0, "", "")⟩
      ⟨false, true, fun _ => (0, "", "")⟩ "p" rfl rfl (fun _ _ => rfl)).2.1 rfl
  · exact (c4_ok_errors_and_fetch_isolation
      ⟨true, true, fun a => if a = ["fetch", "--all", "--prune"] then (1, "", "boom") else (0, "x", "")⟩
      ⟨true, true, fun _ => (0, "x", "")⟩ "p" rfl rfl
      (fun args hargs => by simp [hargs])).2.2.2.2.2.1

end Updatifyyy

namespace Updatifyyy

/-- The scanner only ever appends to the buffer it is given: scanning
into `buf` equals `buf` followed by scanning into the empty buffer. -/
theorem ansiScan_buf_append (l : List Char) : ∀ (buf : List AnsiSpan)
    (tags : List String) (txt : List Char) (st : ScanSt),
    ansiScan buf tags txt st l = buf ++ ansiScan [] tags txt st l := by
  induction l with
  | nil =>
    intro buf tags txt st
    simp only [ansiScan]
    by_cases h : (txt ++ st.chars).isEmpty <;> simp [h]
  | cons c cs ih =>
    intro buf tags txt st
    cases st with
    | norm =>
      simp only [ansiScan]
      split_ifs <;> apply ih
    | esc1 =>
      simp only [ansiScan]
      split_ifs <;> apply ih
    | body b =>
      simp only [ansiScan]
      split_ifs <;>
        first
        | apply ih
        | (rw [ih]; (conv_rhs => rw [ih]); simp)

/-- C1 counterexample: splitting `"\x1b[31mX"` inside the escape
sequence across two feed calls loses both the escape and the style -
the two-call output is two untagged literal spans, not the single red
span the unsplit feed produces. -/
theorem c1_split_feed_counterexample :
    _insert_ansi_formatted (_insert_ansi_formatted [] "\x1b[") "31mX" ≠
      _insert_ansi_formatted [] "\x1b[31mX" ∧
    _insert_ansi_formatted [] "\x1b[31mX" = [⟨"X", ["ansi-red"]⟩] ∧
    _insert_ansi_formatted (_insert_ansi_formatted [] "\x1b[") "31mX" =
      [⟨"\x1b[", []⟩, ⟨"31mX", []⟩] := by
  refine ⟨by decide, by decide, by decide⟩

/-- C1 (amended): the decoder is stateless per call, not split-feed
invariant: each call starts with an empty active-style list and parses
only escape sequences completed within its own argument (a partial
escape at the end of a call is inserted as literal text, not buffered),
so feeding two pieces in consecutive calls appends the two independent
decodes of the pieces, which in general differs from decoding the
concatenation in one call. -/
theorem c1_decoder_stateless_per_call (buf : List AnsiSpan) (a b : String) :
    _insert_ansi_formatted (_insert_ansi_formatted buf a) b =
      buf ++ _insert_ansi_formatted [] a ++ _insert_ansi_formatted [] b := by
  unfold _insert_ansi_formatted
  rw [ansiScan_buf_append b.data, ansiScan_buf_append a.data buf]
  try simp [List.append_assoc]

end Updatifyyy

namespace Updatifyyy

/-- A path just written is present with the written content. -/
theorem fsGet_fsSet_self (fs : FS) (p : String) (c : List String) :
    fsGet (fsSet fs p c) p = some c := by
  induction fs with
  | nil => simp [fsSet, fsGet]
  | cons hd tl ih =>
    obtain ⟨q, d⟩ := hd
    by_cases h : q = p <;> simp [fsSet, fsGet, h, ih]

/-- Writing one path leaves every other path unchanged. -/
theorem fsGet_fsSet_ne (fs : FS) (p q : String) (c : List String) (h : q ≠ p) :
    fsGet (fsSet fs p c) q = fsGet fs q := by
  induction fs with
  | nil => simp [fsSet, fsGet, Ne.symm h]
  | cons hd tl ih =>
    obtain ⟨a, d⟩ := hd
    by_cases ha : a = p <;> simp [fsSet, fsGet, ha, Ne.symm h, ih]

/-- Writing never removes a path. -/
theorem fsGet_fsSet_isSome (fs : FS) (p q : String) (c : List String)
    (h : (fsGet fs q).isSome) : (fsGet (fsSet fs p c) q).isSome := by
  by_cases hq : q = p
  · subst hq
    simp [fsGet_fsSet_self]
  · rw [fsGet_fsSet_ne fs p q c hq]
    exact h

/-- No string equals itself with the non-empty backup suffix attached. -/
theorem ne_append_tweaks_bak (p : String) : p ≠ p ++ ".tweaks.bak" := by
  intro h
  have hlen := congrArg String.length h
  rw [String.length_append] at hlen
  have hpos : 0 < ".tweaks.bak".length := by decide
  omega

/-- Processing one archived file touches at most the file's own path
and its `.tweaks.bak` sibling. -/
theorem restoreFile_frame (cb : String → List String → Decision) (fs : FS)
    (rel : String) (bk : List String) (p : String)
    (h1 : p ≠ rel) (h2 : p ≠ rel ++ ".tweaks.bak") :
    fsGet (restoreFile cb fs rel bk).fs p = fsGet fs p := by
  simp only [restoreFile]
  split_ifs with hg
  · rfl
  · cases hcb : cb rel ((unifiedDiff ((fsGet fs rel).getD []) bk).take 200) <;>
      simp only [hcb]
    cases hcur : fsGet fs rel <;>
      simp only [hcur] <;>
      rw [fsGet_fsSet_ne _ _ _ _ h1]
    rw [fsGet_fsSet_ne _ _ _ _ h2]

/-- Processing one archived file never deletes a present path. -/
theorem restoreFile_isSome (cb : String → List String → Decision) (fs : FS)
    (rel : String) (bk : List String) (p : String)
    (h : (fsGet fs p).isSome) : (fsGet (restoreFile cb fs rel bk).fs p).isSome := by
  simp only [restoreFile]
  split_ifs with hg
  · exact h
  · cases hcb : cb rel ((unifiedDiff ((fsGet fs rel).getD []) bk).take 200) <;>
      simp only [hcb]
    · cases hcur : fsGet fs rel <;> simp only [hcur]
      · exact fsGet_fsSet_isSome _ _ _ _ h
      · exact fsGet_fsSet_isSome _ _ _ _ (fsGet_fsSet_isSome _ _ _ _ h)
    · exact h

end Updatifyyy

namespace Updatifyyy

/-- C7 counterexample: an archived empty file whose current counterpart
exists and is byte-identical (both empty) is still prompted - the
identity shortcut requires the current content to be non-empty - and
the prompt's diff preview is empty. -/
theorem c7_identical_empty_file_prompts :
    fsGet [("a.conf", ([] : List String))] "a.conf" = some [] ∧
    (restoreFile (fun _ _ => Decision.keepNew)
        [("a.conf", [])] "a.conf" []).prompt = some ("a.conf", []) ∧
    (restoreFile (fun _ _ => Decision.keepNew)
        [("a.conf", [])] "a.conf" []).prompt ≠ none := by
  refine ⟨by decide, by decide, by decide⟩

/-- C7 (amended): an archived file whose current counterpart exists
with identical non-empty line content is auto-kept without any prompt
and the file system is untouched; every other archived file (differing
content, absent counterpart, or identical but empty content) triggers
the decision prompt exactly once, with a diff preview that is non-empty
exactly when the two line contents differ; on Keep New the file system
is untouched, and only on Restore is the path overwritten with the
archived content. -/
theorem c7_restore_prompt_policy (cb : String → List String → Decision)
    (fs : FS) (rel : String) (bk : List String) :
    (((fsGet fs rel).getD [] ≠ [] ∧ bk = (fsGet fs rel).getD []) →
      (restoreFile cb fs rel bk).prompt = none ∧
      (restoreFile cb fs rel bk).kept = 1 ∧
      (restoreFile cb fs rel bk).fs = fs) ∧
    (¬ ((fsGet fs rel).getD [] ≠ [] ∧ bk = (fsGet fs rel).getD []) →
      (restoreFile cb fs rel bk).prompt =
        some (rel, (unifiedDiff ((fsGet fs rel).getD []) bk).take 200) ∧
      ((unifiedDiff ((fsGet fs rel).getD []) bk).take 200 ≠ [] ↔
        (fsGet fs rel).getD [] ≠ bk) ∧
      (cb rel ((unifiedDiff ((fsGet fs rel).getD []) bk).take 200) = Decision.keepNew →
        (restoreFile cb fs rel bk).fs = fs ∧ (restoreFile cb fs rel bk).kept = 1) ∧
      (cb rel ((unifiedDiff ((fsGet fs rel).getD []) bk).take 200) = Decision.restore →
        fsGet (restoreFile cb fs rel bk).fs rel = some bk ∧
        (restoreFile cb fs rel bk).restored = 1)) := by
  constructor
  · intro hg
    simp only [restoreFile]
    rw [if_pos hg]
    exact ⟨rfl, rfl, rfl⟩
  · intro hg
    have hpre : ((unifiedDiff ((fsGet fs rel).getD []) bk).take 200 ≠ [] ↔
        (fsGet fs rel).getD [] ≠ bk) := by
      unfold unifiedDiff
      by_cases he : (fsGet fs rel).getD [] = bk <;> simp [he]
    refine ⟨?_, hpre, ?_, ?_⟩
    · simp only [restoreFile]
      rw [if_neg hg]
      cases hcb : cb rel ((unifiedDiff ((fsGet fs rel).getD []) bk).take 200) <;>
        simp [hcb]
    · intro hcb
      simp only [restoreFile]
      rw [if_neg hg]
      simp [hcb]
    · intro hcb
      simp only [restoreFile]
      rw [if_neg hg]
      cases hcur : fsGet fs rel
      · rw [hcur] at hcb
        simp only [Option.getD_none] at hcb
        simp [hcur, hcb, fsGet_fsSet_self]
      · rw [hcur] at hcb
        simp only [Option.getD_some] at hcb
        simp [hcur, hcb, fsGet_fsSet_self]

/-- Witness for C7 (amended): a differing file is prompted with a
non-empty preview and restored on request; an identical non-empty file
is auto-kept. -/
theorem c7_restore_prompt_policy_witness :
    (restoreFile (fun _ _ => Decision.restore)
        [("b.conf", ["old"])] "b.conf" ["mine"]).prompt ≠ none ∧
    fsGet (restoreFile (fun _ _ => Decision.restore)
        [("b.conf", ["old"])] "b.conf" ["mine"]).fs "b.conf" = some ["mine"] ∧
    (restoreFile (fun _ _ => Decision.restore)
        [("a.conf", ["same"])] "a.conf" ["same"]).prompt = none := by
  have h2 := (c7_restore_prompt_policy (fun _ _ => Decision.restore)
    [("b.conf", ["old"])] "b.conf" ["mine"]).2 (by decide)
  have h1 := (c7_restore_prompt_policy (fun _ _ => Decision.restore)
    [("a.conf", ["same"])] "a.conf" ["same"]).1 (by decide)
  refine ⟨?_, (h2.2.2.2 rfl).1, h1.1⟩
  rw [h2.1]
  simp

end Updatifyyy

namespace Updatifyyy

/-- C10 counterexample: a pre-existing `a.conf.tweaks.bak` file - 
present in the target directory and absent from the backup - is
overwritten by the restore of `a.conf`, which saves the pre-restore
content over it. -/
theorem c10_bak_sibling_overwritten :
    fsGet [("a.conf", ["x"]), ("a.conf.tweaks.bak", ["old"])] "a.conf.tweaks.bak" =
      some ["old"] ∧
    fsGet (restoreTweaks (fun _ _ => Decision.restore)
        [("a.conf", ["x"]), ("a.conf.tweaks.bak", ["old"])]
        [("a.conf", ["y"])]).fs "a.conf.tweaks.bak" = some ["x"] ∧
    (["old"] : List String) ≠ ["x"] ∧
    "a.conf.tweaks.bak" ∉ ["a.conf"] := by
  refine ⟨by decide, by decide, by decide, by decide⟩

/-- C10 (amended): the restore pass never deletes any file under the
target directory, and a file whose path is neither an archived path nor
the `.tweaks.bak` sibling of an archived path is never modified or
removed; the only write to a path outside the archive is the save of a
restored file's pre-restore content to its `.tweaks.bak` sibling. -/
theorem c10_restore_never_deletes (cb : String → List String → Decision)
    (backup : List (String × List String)) (fs : FS) :
    (∀ p, (fsGet fs p).isSome → (fsGet (restoreTweaks cb fs backup).fs p).isSome) ∧
    (∀ p, (∀ e ∈ backup, p ≠ e.1 ∧ p ≠ e.1 ++ ".tweaks.bak") →
      fsGet (restoreTweaks cb fs backup).fs p = fsGet fs p) := by
  induction backup generalizing fs with
  | nil => exact ⟨fun p h => h, fun p _ => rfl⟩
  | cons e rest ih =>
    obtain ⟨rel, bk⟩ := e
    constructor
    · intro p h
      exact (ih (restoreFile cb fs rel bk).fs).1 p (restoreFile_isSome cb fs rel bk p h)
    · intro p hp
      have hrest := (ih (restoreFile cb fs rel bk).fs).2 p
        (fun e he => hp e (List.mem_cons_of_mem _ he))
      have hhead := hp (rel, bk) (List.mem_cons_self _ _)
      calc fsGet (restoreTweaks cb (restoreFile cb fs rel bk).fs rest).fs p
          = fsGet (restoreFile cb fs rel bk).fs p := hrest
        _ = fsGet fs p := restoreFile_frame cb fs rel bk p hhead.1 hhead.2

/-- Witness for C10 (amended): a file not in the backup and not a
`.tweaks.bak` sibling survives a restore-all pass unchanged. -/
theorem c10_restore_never_deletes_witness :
    fsGet (restoreTweaks (fun _ _ => Decision.restore)
        [("keep.txt", ["k"])] [("a.conf", ["y"])]).fs "keep.txt" = some ["k"] := by
  have h := (c10_restore_never_deletes (fun _ _ => Decision.restore)
    [("a.conf", ["y"])] [("keep.txt", ["k"])]).2 "keep.txt" (by decide)
  rw [h]
  decide

end Updatifyyy
